import Mathlib

/-!
Shallow embedding of `src/app.py` (controle_presencial), a Flask clock-in /
clock-out application backed by a Postgres table `registros` keyed by
`(cpf, dia)`.

Modelling choices:
* A database row of `registros` is a `Registro`; the table is a `List Registro`.
  `SELECT ... WHERE cpf=%s AND dia=%s` is `List.find?` on the key,
  `INSERT` appends a row, `UPDATE ... WHERE cpf=%s AND dia=%s` maps the
  updating function over all key-matching rows (SQL `UPDATE` semantics).
* Calendar days (`date`) and instants (`datetime`) are both modelled as `Int`
  (an ordinal day number, and a timestamp in whole seconds).  Subtraction of
  two timezone-aware datetimes in Python equals the difference of the
  underlying instants, so `(sai - ent).total_seconds()` is `saida - entrada`.
* `NULL` columns are `Option Int`.  Python truthiness of a row (`if r`) is
  `Option.isSome` of the lookup; truthiness of a `datetime` column is
  `Option.isSome` (a `datetime` object is never falsy).
-/

/-- A row of the `registros` table: `(cpf, dia)` is the primary key,
`entrada`/`saida` are nullable timestamps. -/
structure Registro where
  cpf : String
  dia : Int
  nome : String
  entrada : Option Int
  saida : Option Int
  deriving DecidableEq, Repr

/-- The `WHERE cpf=%s AND dia=%s` condition of the queries in
`registrar_entrada` / `registrar_saida`. -/
def matches_key (cpf : String) (dia : Int) (r : Registro) : Bool :=
  r.cpf == cpf && r.dia == dia

/-- `SELECT ... FROM registros WHERE cpf=%s AND dia=%s` (the table's primary
key makes at most one row match; on a list we take the first match). -/
def find_registro (db : List Registro) (cpf : String) (dia : Int) : Option Registro :=
  db.find? (matches_key cpf dia)

/-- `registrar_entrada(cpf, nome)` from `app.py` (lines 169-198), with the
ambient clock values `hoje = date.today()` and `agora = utc_now()` passed
explicitly.  Returns `(ok, flash message, new table state)`. -/
def registrar_entrada (db : List Registro) (cpf nome : String) (hoje agora : Int) :
    Bool × String × List Registro :=
  match find_registro db cpf hoje with
  | some r =>
    if r.entrada.isSome then
      (false, "Entrada já registrada hoje.", db)
    else
      (true, "Entrada registrada com sucesso.",
        db.map fun x =>
          if matches_key cpf hoje x then { x with entrada := some agora, nome := nome } else x)
  | none =>
    (true, "Entrada registrada com sucesso.",
      db ++ [{ cpf := cpf, dia := hoje, nome := nome, entrada := some agora, saida := none }])

/-- `registrar_saida(cpf)` from `app.py` (lines 201-226), with the ambient
clock values passed explicitly.  Returns `(ok, flash message, new state)`. -/
def registrar_saida (db : List Registro) (cpf : String) (hoje agora : Int) :
    Bool × String × List Registro :=
  match find_registro db cpf hoje with
  | none => (false, "Não há entrada registrada hoje.", db)
  | some r =>
    if r.entrada.isNone then
      (false, "Não há entrada registrada hoje.", db)
    else if r.saida.isSome then
      (false, "Saída já registrada hoje.", db)
    else
      (true, "Saída registrada com sucesso.",
        db.map fun x =>
          if matches_key cpf hoje x then { x with saida := some agora } else x)

example :
    registrar_entrada [] "11111111111" "Ana" 3 100
      = (true, "Entrada registrada com sucesso.",
          [{ cpf := "11111111111", dia := 3, nome := "Ana",
             entrada := some 100, saida := none }]) := by decide

example :
    (registrar_entrada (registrar_entrada [] "11111111111" "Ana" 3 100).2.2
        "11111111111" "Ana" 3 120).1 = false := by decide

example :
    registrar_saida (registrar_entrada [] "11111111111" "Ana" 3 100).2.2
        "11111111111" 3 200
      = (true, "Saída registrada com sucesso.",
          [{ cpf := "11111111111", dia := 3, nome := "Ana",
             entrada := some 100, saida := some 200 }]) := by decide

example : (registrar_saida [] "11111111111" 3 100).2.1
    = "Não há entrada registrada hoje." := by decide

/-- `only_digits(s)` from `app.py` (lines 23-24): keep only digit characters.
A `None` form value (Python `s or ""`) is handled by the caller passing `""`. -/
def only_digits (s : String) : String :=
  String.mk (s.data.filter Char.isDigit)

example : only_digits "123.456.789-09" = "12345678909" := by decide

/-- A row of the `bolsistas` credentials table. -/
structure Bolsista where
  cpf : String
  nome : String
  pin : String
  deriving DecidableEq, Repr

/-- `get_bolsista(cpf)` from `app.py` (lines 158-165):
`SELECT cpf, nome, pin FROM bolsistas WHERE cpf=%s`. -/
def get_bolsista (bolsistas : List Bolsista) (cpf : String) : Option Bolsista :=
  bolsistas.find? (fun b => b.cpf == cpf)

/-- The `POST /registrar` handler from `app.py` (lines 240-261).  Form fields
`cpf`, `pin`, `action` are `Option String` (`request.form.get` returns `None`
for a missing field; `only_digits(None)` sees `""` via `s or ""`).  The flash
message and category are summarised as `(ok, message)`; the handler always
redirects to `/`.  Returns `(ok, message, new registros state)`. -/
def registrar (bolsistas : List Bolsista) (db : List Registro)
    (cpf_form pin_form action : Option String) (hoje agora : Int) :
    Bool × String × List Registro :=
  let cpf := only_digits (cpf_form.getD "")
  let pin := only_digits (pin_form.getD "")
  if cpf.length ≠ 11 then
    (false, "CPF inválido.", db)
  else
    match get_bolsista bolsistas cpf with
    | none => (false, "CPF ou PIN inválido.", db)
    | some b =>
      if b.pin ≠ pin then
        (false, "CPF ou PIN inválido.", db)
      else if action == some "entrada" then
        registrar_entrada db cpf b.nome hoje agora
      else
        registrar_saida db cpf hoje agora

example :
    registrar [⟨"12345678909", "Ana", "1234"⟩] [] (some "123.456.789-09")
        (some "12 34") (some "entrada") 3 100
      = (true, "Entrada registrada com sucesso.",
          [{ cpf := "12345678909", dia := 3, nome := "Ana",
             entrada := some 100, saida := none }]) := by decide

example :
    registrar [⟨"12345678909", "Ana", "1234"⟩] [] (some "123") (some "1234")
        (some "entrada") 3 100
      = (false, "CPF inválido.", []) := by decide

/-- Python `f"{n:02d}"`: decimal rendering left-padded with `0` to width 2. -/
def pad2 (n : Nat) : String :=
  if n < 10 then "0" ++ toString n else toString n

/-- `format_hhmm_from_seconds(seconds)` from `app.py` (lines 56-60).
`not seconds or seconds <= 0` collapses to `seconds ≤ 0` on integers. -/
def format_hhmm_from_seconds (seconds : Int) : String :=
  if seconds ≤ 0 then "00:00"
  else
    let m := seconds.toNat / 60
    pad2 (m / 60) ++ ":" ++ pad2 (m % 60)

example : format_hhmm_from_seconds 5400 = "01:30" := by decide
example : format_hhmm_from_seconds 0 = "00:00" := by decide

/-- The per-row elapsed seconds of the `/admin` loop (`app.py` lines 293-302):
`max(int((sai - ent).total_seconds()), 0)` when both instants are present,
otherwise the row contributes `secs = 0`.  Subtracting the two
timezone-converted datetimes equals subtracting the stored UTC instants. -/
def record_secs (r : Registro) : Int :=
  match r.entrada, r.saida with
  | some e, some s => max (s - e) 0
  | _, _ => 0

/-- The rendered `tempo` cell of the `/admin` table: `"—"` unless both
`entrada` and `saida` are present. -/
def record_tempo (r : Registro) : String :=
  match r.entrada, r.saida with
  | some e, some s => format_hhmm_from_seconds (max (s - e) 0)
  | _, _ => "—"

/-- The `total_seconds` accumulator of the `/admin` loop. -/
def total_secs (rows : List Registro) : Int :=
  rows.foldl (fun acc r => acc + record_secs r) 0

/-- The `WHERE` clause built by `/admin` (`app.py` lines 273-281):
`dia >= start` and/or `dia <= end`, each only when the query parameter is
present; no parameters means no restriction. -/
def in_range (start stop : Option Int) (r : Registro) : Bool :=
  (match start with
   | some a => decide (a ≤ r.dia)
   | none => true)
  && (match stop with
      | some b => decide (r.dia ≤ b)
      | none => true)

/-- The `ORDER BY dia DESC, nome` ordering of `/admin` (`app.py` line 283):
later day first; within a day, display name ascending. -/
def admin_order (r₁ r₂ : Registro) : Prop :=
  r₂.dia < r₁.dia ∨ (r₁.dia = r₂.dia ∧ r₁.nome ≤ r₂.nome)

instance : DecidableRel admin_order := fun r₁ r₂ => by
  unfold admin_order; exact inferInstance

/-- The rows fetched by `/admin` (`app.py` lines 264-288): the filtered table
sorted by `dia DESC, nome` (any sort producing a sorted permutation models
the SQL `ORDER BY`). -/
def query_range (db : List Registro) (start stop : Option Int) : List Registro :=
  (db.filter (in_range start stop)).insertionSort admin_order

/-- Python `str.strip()`: drop whitespace from both ends. -/
def strip_chars (l : List Char) : List Char :=
  ((l.dropWhile Char.isWhitespace).reverse.dropWhile Char.isWhitespace).reverse

/-- Python `xff.split(",")[0]`: the prefix of the string up to the first
comma (when no comma occurs, `split` returns the whole string as its only
field). -/
def first_comma_field (l : List Char) : List Char :=
  l.takeWhile (fun c => c ≠ ',')

/-- `get_client_ip()` from `app.py` (lines 109-111):
`xff.split(",")[0].strip() if xff else request.remote_addr`.
`request.headers.get` yields `none` for a missing header; Python's `if xff`
is also false for a present-but-empty header value, in which case
`request.remote_addr` is used. -/
def get_client_ip (xff : Option String) (remote_addr : String) : String :=
  match xff with
  | some h =>
    if h.isEmpty then remote_addr
    else String.mk (strip_chars (first_comma_field h.data))
  | none => remote_addr

example : get_client_ip (some "1.2.3.4, 5.6.7.8") "9.9.9.9" = "1.2.3.4" := by decide
example : get_client_ip none "9.9.9.9" = "9.9.9.9" := by decide

/-- The body of the fixed denial response (`app.py` lines 323-325). -/
def acesso_negado_body : String := "<h1>403 - Acesso negado</h1>"

/-- `restrict_by_ip()` from `app.py` (lines 135-154) together with the 403
error handler: `none` means the request passes through; `some (status, body)`
is the fixed denial response from `abort(403)`.  `allowed` is the
`ips_permitidos` table (`load_allowed_ips`), a set of address strings. -/
def restrict_by_ip (path : String) (xff : Option String) (remote_addr : String)
    (allowed : List String) : Option (Nat × String) :=
  if path = "/health" then none
  else
    let client_ip := get_client_ip xff remote_addr
    if allowed.isEmpty then none
    else if allowed.contains client_ip then none
    else some (403, acesso_negado_body)

example : restrict_by_ip "/admin" none "10.0.0.2" ["10.0.0.1"]
    = some (403, "<h1>403 - Acesso negado</h1>") := by decide
example : restrict_by_ip "/admin" none "10.0.0.1" ["10.0.0.1"] = none := by decide
example : restrict_by_ip "/admin" none "10.0.0.2" [] = none := by decide

/-- The ambient clock of one request, as `app.py` samples it:
`today_local` is `date.today()` (the server's local calendar date),
`now_utc` is `utc_now()` (the UTC instant), and `sp_day_of` models
`utc_to_local(t).date()` — the America/Sao_Paulo calendar date of a stored
UTC instant (`TZ_BR` conversion, `app.py` lines 18, 38-43). -/
structure Relogio where
  today_local : Int
  now_utc : Int
  sp_day_of : Int → Int

/-- `registrar_entrada` as the route calls it: `hoje = date.today()`,
`agora = utc_now()` (`app.py` lines 170-171). -/
def registrar_entrada_rt (c : Relogio) (db : List Registro) (cpf nome : String) :
    Bool × String × List Registro :=
  registrar_entrada db cpf nome c.today_local c.now_utc

/-- `registrar_saida` as the route calls it: `hoje = date.today()`,
`agora = utc_now()` (`app.py` lines 202-203). -/
def registrar_saida_rt (c : Relogio) (db : List Registro) (cpf : String) :
    Bool × String × List Registro :=
  registrar_saida db cpf c.today_local c.now_utc

/-- One ledger operation, with the clock readings it observed. -/
inductive Op where
  | entrada (cpf nome : String) (hoje agora : Int)
  | saida (cpf : String) (hoje agora : Int)

/-- The `utc_now()` reading an operation observed. -/
def Op.agora : Op → Int
  | .entrada _ _ _ a => a
  | .saida _ _ a => a

/-- The state transition of one operation on the `registros` table. -/
def apply_op (db : List Registro) : Op → List Registro
  | .entrada cpf nome hoje agora => (registrar_entrada db cpf nome hoje agora).2.2
  | .saida cpf hoje agora => (registrar_saida db cpf hoje agora).2.2

/-- The table reached from the empty table by a sequence of operations. -/
def run_ops (ops : List Op) : List Registro :=
  ops.foldl apply_op []

/-- The failure condition of `registrar_entrada`: a row for `(cpf, hoje)`
exists and its `entrada` column is non-NULL (`if r and r["entrada"]`). -/
def entrada_ja_registrada (db : List Registro) (cpf : String) (hoje : Int) : Bool :=
  match find_registro db cpf hoje with
  | some r => r.entrada.isSome
  | none => false

/-- The `NoEntryYet` condition of `registrar_saida`: the row for `(cpf, hoje)`
is absent or its `entrada` column is NULL (`if not r or not r["entrada"]`). -/
def sem_entrada_hoje (db : List Registro) (cpf : String) (hoje : Int) : Bool :=
  match find_registro db cpf hoje with
  | some r => r.entrada.isNone
  | none => true

/-- The `AlreadyClockedOut` condition of `registrar_saida`: the row exists
with both `entrada` and `saida` non-NULL. -/
def saida_ja_registrada (db : List Registro) (cpf : String) (hoje : Int) : Bool :=
  match find_registro db cpf hoje with
  | some r => r.entrada.isSome && r.saida.isSome
  | none => false

theorem matches_key_set_entrada (cpf : String) (hoje : Int) (nome : String)
    (agora : Int) (x : Registro) :
    matches_key cpf hoje { x with entrada := some agora, nome := nome }
      = matches_key cpf hoje x := rfl

theorem matches_key_set_saida (cpf : String) (hoje agora : Int) (x : Registro) :
    matches_key cpf hoje { x with saida := some agora } = matches_key cpf hoje x := rfl

/-- `find?` commutes with mapping a function that does not change whether the
predicate holds. -/
theorem find_map_pres {α : Type} (p : α → Bool) (f : α → α)
    (hp : ∀ x, p (f x) = p x) (l : List α) :
    (l.map f).find? p = (l.find? p).map f := by
  rw [List.find?_map]
  have : p ∘ f = p := funext hp
  rw [this]

/-- The updating function of the `UPDATE` in `registrar_entrada` preserves
the row key. -/
theorem entrada_upd_pres (cpf : String) (hoje : Int) (nome : String) (agora : Int)
    (x : Registro) :
    matches_key cpf hoje
        (if matches_key cpf hoje x then { x with entrada := some agora, nome := nome } else x)
      = matches_key cpf hoje x := by
  cases h : matches_key cpf hoje x <;> simp_all [matches_key]

/-- The updating function of the `UPDATE` in `registrar_saida` preserves the
row key. -/
theorem saida_upd_pres (cpf : String) (hoje agora : Int) (x : Registro) :
    matches_key cpf hoje
        (if matches_key cpf hoje x then { x with saida := some agora } else x)
      = matches_key cpf hoje x := by
  cases h : matches_key cpf hoje x <;> simp_all [matches_key]

theorem matches_key_self (cpf : String) (hoje : Int) (nome : String)
    (entrada saida : Option Int) :
    matches_key cpf hoje
      { cpf := cpf, dia := hoje, nome := nome, entrada := entrada, saida := saida } = true := by
  simp [matches_key]

/-- On failure, `registrar_entrada` leaves the table unchanged. -/
theorem registrar_entrada_fail_db (db : List Registro) (cpf nome : String)
    (hoje agora : Int) (h : (registrar_entrada db cpf nome hoje agora).1 = false) :
    (registrar_entrada db cpf nome hoje agora).2.2 = db := by
  unfold registrar_entrada at *
  cases hf : find_registro db cpf hoje with
  | none => simp [hf] at h
  | some r =>
    cases he : r.entrada.isSome with
    | true => simp [hf, he]
    | false => simp [hf, he] at h

/-- On failure, `registrar_saida` leaves the table unchanged. -/
theorem registrar_saida_fail_db (db : List Registro) (cpf : String)
    (hoje agora : Int) (h : (registrar_saida db cpf hoje agora).1 = false) :
    (registrar_saida db cpf hoje agora).2.2 = db := by
  unfold registrar_saida at *
  cases hf : find_registro db cpf hoje with
  | none => simp [hf]
  | some r =>
    cases he : r.entrada.isNone with
    | true => simp [hf, he]
    | false =>
      cases hs : r.saida.isSome with
      | true => simp [hf, he, hs]
      | false => simp [hf, he, hs] at h

/-- Branch equation: no row for `(cpf, hoje)` yet, so `INSERT`. -/
theorem registrar_entrada_eq_insert (db : List Registro) (cpf nome : String)
    (hoje agora : Int) (hf : find_registro db cpf hoje = none) :
    registrar_entrada db cpf nome hoje agora
      = (true, "Entrada registrada com sucesso.",
          db ++ [{ cpf := cpf, dia := hoje, nome := nome,
                   entrada := some agora, saida := none }]) := by
  unfold registrar_entrada
  rw [hf]

/-- Branch equation: a row exists with NULL `entrada`, so `UPDATE`. -/
theorem registrar_entrada_eq_update (db : List Registro) (cpf nome : String)
    (hoje agora : Int) (r : Registro) (hf : find_registro db cpf hoje = some r)
    (he : r.entrada.isSome = false) :
    registrar_entrada db cpf nome hoje agora
      = (true, "Entrada registrada com sucesso.",
          db.map fun x =>
            if matches_key cpf hoje x then { x with entrada := some agora, nome := nome }
            else x) := by
  unfold registrar_entrada
  rw [hf]
  simp [he]

/-- Branch equation: a row exists with non-NULL `entrada`, so refuse. -/
theorem registrar_entrada_eq_dup (db : List Registro) (cpf nome : String)
    (hoje agora : Int) (r : Registro) (hf : find_registro db cpf hoje = some r)
    (he : r.entrada.isSome = true) :
    registrar_entrada db cpf nome hoje agora
      = (false, "Entrada já registrada hoje.", db) := by
  unfold registrar_entrada
  rw [hf]
  simp [he]

/-- Branch equation: no row for `(cpf, hoje)`, so `NoEntryYet`. -/
theorem registrar_saida_eq_absent (db : List Registro) (cpf : String)
    (hoje agora : Int) (hf : find_registro db cpf hoje = none) :
    registrar_saida db cpf hoje agora
      = (false, "Não há entrada registrada hoje.", db) := by
  unfold registrar_saida
  rw [hf]

/-- Branch equation: the row exists but `entrada` is NULL, so `NoEntryYet`. -/
theorem registrar_saida_eq_no_entrada (db : List Registro) (cpf : String)
    (hoje agora : Int) (r : Registro) (hf : find_registro db cpf hoje = some r)
    (he : r.entrada.isNone = true) :
    registrar_saida db cpf hoje agora
      = (false, "Não há entrada registrada hoje.", db) := by
  unfold registrar_saida
  rw [hf]
  simp [he]

/-- Branch equation: `entrada` and `saida` both set, so `AlreadyClockedOut`. -/
theorem registrar_saida_eq_dup (db : List Registro) (cpf : String)
    (hoje agora : Int) (r : Registro) (hf : find_registro db cpf hoje = some r)
    (he : r.entrada.isNone = false) (hs : r.saida.isSome = true) :
    registrar_saida db cpf hoje agora
      = (false, "Saída já registrada hoje.", db) := by
  unfold registrar_saida
  rw [hf]
  simp [he, hs]

/-- Branch equation: `entrada` set and `saida` NULL, so `UPDATE`. -/
theorem registrar_saida_eq_update (db : List Registro) (cpf : String)
    (hoje agora : Int) (r : Registro) (hf : find_registro db cpf hoje = some r)
    (he : r.entrada.isNone = false) (hs : r.saida.isSome = false) :
    registrar_saida db cpf hoje agora
      = (true, "Saída registrada com sucesso.",
          db.map fun x =>
            if matches_key cpf hoje x then { x with saida := some agora } else x) := by
  unfold registrar_saida
  rw [hf]
  simp [he, hs]

/-- After the `UPDATE` of `registrar_entrada`, the looked-up row is the found
row with `entrada := agora` and `nome := nome`. -/
theorem find_after_entrada_update (db : List Registro) (cpf nome : String)
    (hoje agora : Int) (r : Registro) (hf : find_registro db cpf hoje = some r) :
    find_registro
        (db.map fun x =>
          if matches_key cpf hoje x then { x with entrada := some agora, nome := nome }
          else x) cpf hoje
      = some { r with entrada := some agora, nome := nome } := by
  unfold find_registro at hf ⊢
  rw [find_map_pres _ _ (entrada_upd_pres cpf hoje nome agora), hf]
  simp [List.find?_some hf]

/-- After the `UPDATE` of `registrar_saida`, the looked-up row is the found
row with `saida := agora`. -/
theorem find_after_saida_update (db : List Registro) (cpf : String)
    (hoje agora : Int) (r : Registro) (hf : find_registro db cpf hoje = some r) :
    find_registro
        (db.map fun x =>
          if matches_key cpf hoje x then { x with saida := some agora } else x) cpf hoje
      = some { r with saida := some agora } := by
  unfold find_registro at hf ⊢
  rw [find_map_pres _ _ (saida_upd_pres cpf hoje agora), hf]
  simp [List.find?_some hf]

/-- After the `INSERT` of `registrar_entrada`, the looked-up row is the
freshly inserted one. -/
theorem find_after_entrada_insert (db : List Registro) (cpf nome : String)
    (hoje agora : Int) (hf : find_registro db cpf hoje = none) :
    find_registro
        (db ++ [{ cpf := cpf, dia := hoje, nome := nome,
                  entrada := some agora, saida := none }]) cpf hoje
      = some { cpf := cpf, dia := hoje, nome := nome,
               entrada := some agora, saida := none } := by
  unfold find_registro at hf ⊢
  rw [List.find?_append, hf, Option.none_or,
    List.find?_cons_of_pos _ (matches_key_self cpf hoje nome (some agora) none)]

/-- Whenever the `AlreadyClockedIn` condition holds, `registrar_entrada`
fails with that flash and leaves the table unchanged. -/
theorem registrar_entrada_eq_of_ja (db : List Registro) (cpf nome : String)
    (hoje agora : Int) (h : entrada_ja_registrada db cpf hoje = true) :
    registrar_entrada db cpf nome hoje agora
      = (false, "Entrada já registrada hoje.", db) := by
  unfold entrada_ja_registrada at h
  cases hf : find_registro db cpf hoje with
  | none => rw [hf] at h; exact Bool.noConfusion h
  | some r => rw [hf] at h; exact registrar_entrada_eq_dup db cpf nome hoje agora r hf h

/-- Whenever the `AlreadyClockedIn` condition fails, `registrar_entrada`
succeeds and afterwards the row for `(cpf, hoje)` has `entrada = agora`. -/
theorem registrar_entrada_success (db : List Registro) (cpf nome : String)
    (hoje agora : Int) (h : entrada_ja_registrada db cpf hoje = false) :
    (registrar_entrada db cpf nome hoje agora).1 = true ∧
    (registrar_entrada db cpf nome hoje agora).2.1 = "Entrada registrada com sucesso." ∧
    ∃ r, find_registro (registrar_entrada db cpf nome hoje agora).2.2 cpf hoje = some r ∧
      r.entrada = some agora := by
  unfold entrada_ja_registrada at h
  cases hf : find_registro db cpf hoje with
  | none =>
    rw [registrar_entrada_eq_insert db cpf nome hoje agora hf]
    exact ⟨rfl, rfl, _, find_after_entrada_insert db cpf nome hoje agora hf, rfl⟩
  | some r =>
    rw [hf] at h
    have he : r.entrada.isSome = false := h
    rw [registrar_entrada_eq_update db cpf nome hoje agora r hf he]
    exact ⟨rfl, rfl, _, find_after_entrada_update db cpf nome hoje agora r hf, rfl⟩

/-- C1: `registrar_entrada` fails with the flash "Entrada já registrada
hoje." exactly when a row for `(cpf, hoje)` with non-NULL `entrada` already
exists; in that case the table is unchanged.  Otherwise it succeeds and the
row for `(cpf, hoje)` (created or updated) carries `entrada = agora`; and a
second `registrar_entrada` on the resulting table (any name, any instant)
fails with "Entrada já registrada hoje." leaving the table unchanged. -/
theorem C1_registrar_entrada_spec (db : List Registro) (cpf nome : String)
    (hoje agora : Int) :
    (((registrar_entrada db cpf nome hoje agora).1 = false ∧
        (registrar_entrada db cpf nome hoje agora).2.1 = "Entrada já registrada hoje.")
      ↔ entrada_ja_registrada db cpf hoje = true) ∧
    (entrada_ja_registrada db cpf hoje = true →
      registrar_entrada db cpf nome hoje agora
        = (false, "Entrada já registrada hoje.", db)) ∧
    (entrada_ja_registrada db cpf hoje = false →
      (registrar_entrada db cpf nome hoje agora).1 = true ∧
      (registrar_entrada db cpf nome hoje agora).2.1 = "Entrada registrada com sucesso." ∧
      ∃ r, find_registro (registrar_entrada db cpf nome hoje agora).2.2 cpf hoje = some r ∧
        r.entrada = some agora) ∧
    (entrada_ja_registrada db cpf hoje = false →
      ∀ nome2 agora2,
        registrar_entrada (registrar_entrada db cpf nome hoje agora).2.2 cpf nome2 hoje agora2
          = (false, "Entrada já registrada hoje.",
              (registrar_entrada db cpf nome hoje agora).2.2)) := by
  by_cases h : entrada_ja_registrada db cpf hoje = true
  · rw [registrar_entrada_eq_of_ja db cpf nome hoje agora h]
    exact ⟨by simp [h], fun _ => rfl,
      fun hc => absurd h (by simp [hc]), fun hc => absurd h (by simp [hc])⟩
  · have h' : entrada_ja_registrada db cpf hoje = false := by
      cases hv : entrada_ja_registrada db cpf hoje with
      | true => exact absurd hv h
      | false => rfl
    obtain ⟨h1, h2, r, hr, hre⟩ := registrar_entrada_success db cpf nome hoje agora h'
    refine ⟨?_, fun hc => absurd hc h, fun _ => ⟨h1, h2, r, hr, hre⟩,
      fun _ nome2 agora2 => ?_⟩
    · constructor
      · rintro ⟨hfalse, -⟩
        rw [h1] at hfalse
        exact Bool.noConfusion hfalse
      · intro hc
        exact absurd hc h
    · have hja : entrada_ja_registrada
          (registrar_entrada db cpf nome hoje agora).2.2 cpf hoje = true := by
        unfold entrada_ja_registrada
        rw [hr]
        show r.entrada.isSome = true
        rw [hre]
        rfl
      exact registrar_entrada_eq_of_ja _ cpf nome2 hoje agora2 hja

/-- C1 witness: on the empty table, clocking in succeeds and a second
clock-in the same day fails with the `AlreadyClockedIn` flash. -/
theorem C1_registrar_entrada_spec_witness :
    (registrar_entrada [] "11111111111" "Ana" 3 100).1 = true ∧
    registrar_entrada (registrar_entrada [] "11111111111" "Ana" 3 100).2.2
        "11111111111" "Ana" 3 120
      = (false, "Entrada já registrada hoje.",
          (registrar_entrada [] "11111111111" "Ana" 3 100).2.2) := by
  have h := C1_registrar_entrada_spec [] "11111111111" "Ana" 3 100
  exact ⟨(h.2.2.1 (by decide)).1, h.2.2.2 (by decide) "Ana" 120⟩

theorem ne_msg_noentry_dup :
    ("Não há entrada registrada hoje." : String) ≠ "Saída já registrada hoje." := by decide

theorem ne_msg_dup_noentry :
    ("Saída já registrada hoje." : String) ≠ "Não há entrada registrada hoje." := by decide

/-- C2: `registrar_saida` fails with "Não há entrada registrada hoje."
exactly when the row for `(cpf, hoje)` is absent or has NULL `entrada`, and
with "Saída já registrada hoje." exactly when the row has both `entrada` and
`saida` set; both failures leave the table unchanged.  Otherwise it succeeds
and sets `saida = agora` on the row; and a second `registrar_saida` on the
resulting table fails with "Saída já registrada hoje." leaving it
unchanged. -/
theorem C2_registrar_saida_spec (db : List Registro) (cpf : String) (hoje agora : Int) :
    (((registrar_saida db cpf hoje agora).1 = false ∧
        (registrar_saida db cpf hoje agora).2.1 = "Não há entrada registrada hoje.")
      ↔ sem_entrada_hoje db cpf hoje = true) ∧
    (((registrar_saida db cpf hoje agora).1 = false ∧
        (registrar_saida db cpf hoje agora).2.1 = "Saída já registrada hoje.")
      ↔ saida_ja_registrada db cpf hoje = true) ∧
    ((registrar_saida db cpf hoje agora).1 = false →
      (registrar_saida db cpf hoje agora).2.2 = db) ∧
    (sem_entrada_hoje db cpf hoje = false → saida_ja_registrada db cpf hoje = false →
      (registrar_saida db cpf hoje agora).1 = true ∧
      (registrar_saida db cpf hoje agora).2.1 = "Saída registrada com sucesso." ∧
      ∃ r, find_registro db cpf hoje = some r ∧
        find_registro (registrar_saida db cpf hoje agora).2.2 cpf hoje
          = some { r with saida := some agora }) ∧
    (sem_entrada_hoje db cpf hoje = false → saida_ja_registrada db cpf hoje = false →
      ∀ agora2,
        registrar_saida (registrar_saida db cpf hoje agora).2.2 cpf hoje agora2
          = (false, "Saída já registrada hoje.", (registrar_saida db cpf hoje agora).2.2)) := by
  cases hf : find_registro db cpf hoje with
  | none =>
    have hsem : sem_entrada_hoje db cpf hoje = true := by
      unfold sem_entrada_hoje; rw [hf]
    rw [registrar_saida_eq_absent db cpf hoje agora hf]
    refine ⟨by simp [hsem], ?_, fun _ => rfl,
      fun hc => absurd hsem (by simp [hc]), fun hc => absurd hsem (by simp [hc])⟩
    constructor
    · rintro ⟨-, hmsg⟩
      exact absurd hmsg ne_msg_noentry_dup
    · intro hc
      unfold saida_ja_registrada at hc
      rw [hf] at hc
      exact Bool.noConfusion hc
  | some r =>
    cases hre : r.entrada with
    | none =>
      have hsem : sem_entrada_hoje db cpf hoje = true := by
        unfold sem_entrada_hoje; rw [hf]
        show r.entrada.isNone = true
        rw [hre]; rfl
      rw [registrar_saida_eq_no_entrada db cpf hoje agora r hf (by rw [hre]; rfl)]
      refine ⟨by simp [hsem], ?_, fun _ => rfl,
        fun hc => absurd hsem (by simp [hc]), fun hc => absurd hsem (by simp [hc])⟩
      constructor
      · rintro ⟨-, hmsg⟩
        exact absurd hmsg ne_msg_noentry_dup
      · intro hc
        unfold saida_ja_registrada at hc
        rw [hf] at hc
        have hc' : (r.entrada.isSome && r.saida.isSome) = true := hc
        rw [hre] at hc'
        exact Bool.noConfusion hc'
    | some e =>
      have hsem : sem_entrada_hoje db cpf hoje = false := by
        unfold sem_entrada_hoje; rw [hf]
        show r.entrada.isNone = false
        rw [hre]; rfl
      cases hrs : r.saida with
      | some s =>
        have hja : saida_ja_registrada db cpf hoje = true := by
          unfold saida_ja_registrada; rw [hf]
          show (r.entrada.isSome && r.saida.isSome) = true
          rw [hre, hrs]; rfl
        rw [registrar_saida_eq_dup db cpf hoje agora r hf (by rw [hre]; rfl)
          (by rw [hrs]; rfl)]
        refine ⟨?_, by simp [hja], fun _ => rfl, fun _ hc => absurd hja (by simp [hc]),
          fun _ hc => absurd hja (by simp [hc])⟩
        constructor
        · rintro ⟨-, hmsg⟩
          exact absurd hmsg ne_msg_dup_noentry
        · intro hc
          rw [hsem] at hc
          exact Bool.noConfusion hc
      | none =>
        have hja : saida_ja_registrada db cpf hoje = false := by
          unfold saida_ja_registrada; rw [hf]
          show (r.entrada.isSome && r.saida.isSome) = false
          rw [hrs]
          simp
        rw [registrar_saida_eq_update db cpf hoje agora r hf (by rw [hre]; rfl)
          (by rw [hrs]; rfl)]
        have hfind := find_after_saida_update db cpf hoje agora r hf
        refine ⟨?_, ?_, ?_, fun _ _ => ⟨rfl, rfl, r, rfl, hfind⟩, fun _ _ agora2 => ?_⟩
        · constructor
          · rintro ⟨hfalse, -⟩
            exact Bool.noConfusion hfalse
          · intro hc
            rw [hsem] at hc
            exact Bool.noConfusion hc
        · constructor
          · rintro ⟨hfalse, -⟩
            exact Bool.noConfusion hfalse
          · intro hc
            rw [hja] at hc
            exact Bool.noConfusion hc
        · intro hfalse
          exact Bool.noConfusion hfalse
        · exact registrar_saida_eq_dup _ cpf hoje agora2 _ hfind (by rw [hre]; rfl) rfl

/-- C2 witness: clocking out before any entry yields the `NoEntryYet` flash;
after one entry, clocking out succeeds and a second clock-out yields the
`AlreadyClockedOut` flash. -/
theorem C2_registrar_saida_spec_witness :
    ((registrar_saida [] "11111111111" 3 100).1 = false ∧
      (registrar_saida [] "11111111111" 3 100).2.1 = "Não há entrada registrada hoje.") ∧
    (registrar_saida [⟨"11111111111", 3, "Ana", some 100, none⟩] "11111111111" 3 200).1
      = true ∧
    registrar_saida
        (registrar_saida [⟨"11111111111", 3, "Ana", some 100, none⟩] "11111111111" 3 200).2.2
        "11111111111" 3 300
      = (false, "Saída já registrada hoje.",
          (registrar_saida [⟨"11111111111", 3, "Ana", some 100, none⟩]
            "11111111111" 3 200).2.2) := by
  have h0 := C2_registrar_saida_spec [] "11111111111" 3 100
  have h1 := C2_registrar_saida_spec [⟨"11111111111", 3, "Ana", some 100, none⟩]
    "11111111111" 3 200
  exact ⟨h0.1.mpr (by decide), (h1.2.2.2.1 (by decide) (by decide)).1,
    h1.2.2.2.2 (by decide) (by decide) 300⟩

/-- Stripping non-digits is idempotent. -/
theorem only_digits_idem (s : String) : only_digits (only_digits s) = only_digits s := by
  unfold only_digits
  simp [List.filter_filter]

/-- `registrar` is insensitive to non-digit characters in the submitted
`cpf` and `pin`: both are normalized with `only_digits` before any check. -/
theorem registrar_normalizes (bolsistas : List Bolsista) (db : List Registro)
    (c p : String) (action : Option String) (hoje agora : Int) :
    registrar bolsistas db (some c) (some p) action hoje agora
      = registrar bolsistas db (some (only_digits c)) (some (only_digits p))
          action hoje agora := by
  unfold registrar
  simp only [Option.getD_some, only_digits_idem]

/-- C7: `POST /registrar` strips all non-digit characters from both the
identifier and the PIN before any check ("123.456.789-09" normalizes to
"12345678909", and the handler's outcome only depends on the digits of the
submitted fields); whenever the normalized identifier is not exactly 11
digits it rejects with "CPF inválido." — for every credential table and
every ledger, which it leaves untouched. -/
theorem C7_normalization_and_length_check (bolsistas : List Bolsista)
    (db : List Registro) (cpf_form pin_form action : Option String)
    (hoje agora : Int) (c p : String) :
    only_digits "123.456.789-09" = "12345678909" ∧
    registrar bolsistas db (some c) (some p) action hoje agora
      = registrar bolsistas db (some (only_digits c)) (some (only_digits p))
          action hoje agora ∧
    ((only_digits (cpf_form.getD "")).length ≠ 11 →
      registrar bolsistas db cpf_form pin_form action hoje agora
        = (false, "CPF inválido.", db)) := by
  refine ⟨by decide, registrar_normalizes bolsistas db c p action hoje agora, fun hlen => ?_⟩
  unfold registrar
  simp only [if_pos hlen]

/-- C7 witness: a formatted CPF normalizes to its digits, the handler treats
the formatted and digit-only submissions alike, and a 3-digit identifier is
rejected with "CPF inválido." without touching the (empty) ledger. -/
theorem C7_normalization_and_length_check_witness :
    only_digits "123.456.789-09" = "12345678909" ∧
    registrar [⟨"12345678909", "Ana", "1234"⟩] [] (some "123.456.789-09")
        (some "12-34") none 3 100
      = registrar [⟨"12345678909", "Ana", "1234"⟩] [] (some "12345678909")
          (some "1234") none 3 100 ∧
    registrar [⟨"12345678909", "Ana", "1234"⟩] [] (some "123") (some "1234") none 3 100
      = (false, "CPF inválido.", []) := by
  have h := C7_normalization_and_length_check [⟨"12345678909", "Ana", "1234"⟩] []
    (some "123") (some "1234") none 3 100 "123.456.789-09" "12-34"
  exact ⟨h.1, h.2.1, h.2.2 (by decide)⟩

/-- C8: every failing outcome of `POST /registrar` leaves the `registros`
table exactly as it was. -/
theorem C8_failure_preserves_ledger (bolsistas : List Bolsista) (db : List Registro)
    (cpf_form pin_form action : Option String) (hoje agora : Int)
    (h : (registrar bolsistas db cpf_form pin_form action hoje agora).1 = false) :
    (registrar bolsistas db cpf_form pin_form action hoje agora).2.2 = db := by
  unfold registrar at h ⊢
  by_cases hlen : (only_digits (cpf_form.getD "")).length ≠ 11
  · simp only [if_pos hlen]
  · simp only [if_neg hlen] at h ⊢
    cases hb : get_bolsista bolsistas (only_digits (cpf_form.getD "")) with
    | none => simp only [hb]
    | some b =>
      simp only [hb] at h ⊢
      by_cases hpin : b.pin ≠ only_digits (pin_form.getD "")
      · simp only [if_pos hpin]
      · simp only [if_neg hpin] at h ⊢
        by_cases hact : (action == some "entrada") = true
        · simp only [hact, if_true] at h ⊢
          exact registrar_entrada_fail_db db _ b.nome hoje agora h
        · simp only [Bool.not_eq_true] at hact
          simp only [hact, Bool.false_eq_true, if_false] at h ⊢
          exact registrar_saida_fail_db db _ hoje agora h

/-- C8 witness: a rejected submission (unknown credentials) leaves the
ledger unchanged. -/
theorem C8_failure_preserves_ledger_witness :
    (registrar [] [⟨"12345678909", 3, "Ana", some 100, none⟩] (some "12345678909")
      (some "1234") (some "entrada") 3 200).2.2
      = [⟨"12345678909", 3, "Ana", some 100, none⟩] := by
  exact C8_failure_preserves_ledger [] [⟨"12345678909", 3, "Ana", some 100, none⟩]
    (some "12345678909") (some "1234") (some "entrada") 3 200 (by decide)

/-- C10: once the identifier and credential checks pass, only the exact form
value `action = "entrada"` dispatches to `registrar_entrada`; every other
value — `"saida"`, a missing field, or garbage — dispatches to
`registrar_saida`. -/
theorem C10_action_dispatch (bolsistas : List Bolsista) (db : List Registro)
    (cpf_form pin_form action : Option String) (hoje agora : Int) (b : Bolsista)
    (hlen : (only_digits (cpf_form.getD "")).length = 11)
    (hb : get_bolsista bolsistas (only_digits (cpf_form.getD "")) = some b)
    (hpin : b.pin = only_digits (pin_form.getD "")) :
    (action ≠ some "entrada" →
      registrar bolsistas db cpf_form pin_form action hoje agora
        = registrar_saida db (only_digits (cpf_form.getD "")) hoje agora) ∧
    (action = some "entrada" →
      registrar bolsistas db cpf_form pin_form action hoje agora
        = registrar_entrada db (only_digits (cpf_form.getD "")) b.nome hoje agora) := by
  unfold registrar
  rw [if_neg (by simp [hlen]), hb]
  constructor
  · intro hne
    simp [hpin, hne]
  · intro heq
    simp [hpin, heq]

/-- C10 witness: with valid credentials, `action = "saida"` and a missing
`action` field are both processed as an exit punch, while `action =
"entrada"` is processed as an entry punch. -/
theorem C10_action_dispatch_witness :
    registrar [⟨"12345678909", "Ana", "1234"⟩] [] (some "12345678909") (some "1234")
        (some "saida") 3 100
      = registrar_saida [] "12345678909" 3 100 ∧
    registrar [⟨"12345678909", "Ana", "1234"⟩] [] (some "12345678909") (some "1234")
        none 3 100
      = registrar_saida [] "12345678909" 3 100 ∧
    registrar [⟨"12345678909", "Ana", "1234"⟩] [] (some "12345678909") (some "1234")
        (some "entrada") 3 100
      = registrar_entrada [] "12345678909" "Ana" 3 100 := by
  refine ⟨?_, ?_, ?_⟩
  · exact (C10_action_dispatch [⟨"12345678909", "Ana", "1234"⟩] [] (some "12345678909")
      (some "1234") (some "saida") 3 100 ⟨"12345678909", "Ana", "1234"⟩
      (by decide) (by decide) (by decide)).1 (by decide)
  · exact (C10_action_dispatch [⟨"12345678909", "Ana", "1234"⟩] [] (some "12345678909")
      (some "1234") none 3 100 ⟨"12345678909", "Ana", "1234"⟩
      (by decide) (by decide) (by decide)).1 (by decide)
  · exact (C10_action_dispatch [⟨"12345678909", "Ana", "1234"⟩] [] (some "12345678909")
      (some "1234") (some "entrada") 3 100 ⟨"12345678909", "Ana", "1234"⟩
      (by decide) (by decide) (by decide)).2 rfl

/-- Folding the `/admin` accumulator equals summing the per-row values. -/
theorem foldl_record_secs (rows : List Registro) (a : Int) :
    rows.foldl (fun acc r => acc + record_secs r) a = a + (rows.map record_secs).sum := by
  induction rows generalizing a with
  | nil => simp
  | cons r rows ih => rw [List.foldl_cons, ih, List.map_cons, List.sum_cons, add_assoc]

/-- C4: the elapsed time of a row is `exit − entry` clamped at zero when both
instants are present (entry `T`, exit `T − 5` gives zero), and zero (rendered
"—") when either is missing; the total is the sum of the per-row clamped
values, zero on the empty sequence, and `01:30` on the rows 09:00–09:30 and
10:00–11:00 (instants in seconds of the reference day). -/
theorem C4_elapsed_and_total (r : Registro) (rows : List Registro) (e s : Int) :
    (r.entrada = some e → r.saida = some s → record_secs r = max (s - e) 0) ∧
    (r.entrada = some e → r.saida = some (e - 5) → record_secs r = 0) ∧
    ((r.entrada = none ∨ r.saida = none) → record_secs r = 0 ∧ record_tempo r = "—") ∧
    total_secs [] = 0 ∧
    total_secs rows = (rows.map record_secs).sum ∧
    total_secs
        [{ cpf := "1", dia := 0, nome := "Ana", entrada := some 32400, saida := some 34200 },
         { cpf := "2", dia := 0, nome := "Bia", entrada := some 36000, saida := some 39600 }]
      = 5400 ∧
    format_hhmm_from_seconds 5400 = "01:30" := by
  refine ⟨?_, ?_, ?_, by decide,
    by unfold total_secs; rw [foldl_record_secs rows 0, zero_add], by decide, by decide⟩
  · intro he hs
    unfold record_secs
    rw [he, hs]
  · intro he hs
    unfold record_secs
    rw [he, hs]
    show max (e - 5 - e) 0 = 0
    omega
  · rintro (he | hs)
    · cases hrs : r.saida <;>
        · constructor
          · unfold record_secs; rw [he, hrs]
          · unfold record_tempo; rw [he, hrs]
    · cases hre : r.entrada <;>
        · constructor
          · unfold record_secs; rw [hre, hs]
          · unfold record_tempo; rw [hre, hs]

/-- C4 witness: clock-skewed exit clamps to zero, a row missing an exit
renders "—" and contributes zero, the empty total is zero, and the example
rows total `01:30`. -/
theorem C4_elapsed_and_total_witness :
    record_secs { cpf := "1", dia := 0, nome := "Ana",
                  entrada := some 100, saida := some 95 } = 0 ∧
    record_secs { cpf := "1", dia := 0, nome := "Ana",
                  entrada := some 100, saida := none } = 0 ∧
    record_tempo { cpf := "1", dia := 0, nome := "Ana",
                   entrada := some 100, saida := none } = "—" ∧
    total_secs [] = 0 ∧
    total_secs
        [{ cpf := "1", dia := 0, nome := "Ana", entrada := some 32400, saida := some 34200 },
         { cpf := "2", dia := 0, nome := "Bia", entrada := some 36000, saida := some 39600 }]
      = 5400 ∧
    format_hhmm_from_seconds 5400 = "01:30" := by
  have h1 := C4_elapsed_and_total
    { cpf := "1", dia := 0, nome := "Ana", entrada := some 100, saida := some 95 } [] 100 95
  have h2 := C4_elapsed_and_total
    { cpf := "1", dia := 0, nome := "Ana", entrada := some 100, saida := none } [] 100 95
  have h3 := (h2.2.2.1 (Or.inr rfl))
  exact ⟨h1.2.1 rfl (by decide), h3.1, h3.2, h1.2.2.2.1, h1.2.2.2.2.2.1, h1.2.2.2.2.2.2⟩

theorem contains_iff_mem_str (l : List String) (a : String) :
    l.contains a = true ↔ a ∈ l := by simp

/-- C6: outside `/health`, the gate admits a request exactly when the
allow-set is empty (fail-open) or the caller's address is a member of it; a
denied request gets the fixed `403` response with body
"<h1>403 - Acesso negado</h1>".  The caller's address is the stripped first
comma-separated entry of the `X-Forwarded-For` header when one is present
(and non-empty), else the transport-level peer address. -/
theorem C6_access_gate (path : String) (xff : Option String) (remote_addr : String)
    (allowed : List String) (h : String) :
    (path ≠ "/health" →
      ((restrict_by_ip path xff remote_addr allowed = none)
        ↔ (allowed = [] ∨ get_client_ip xff remote_addr ∈ allowed)) ∧
      (restrict_by_ip path xff remote_addr allowed ≠ none →
        restrict_by_ip path xff remote_addr allowed
          = some (403, "<h1>403 - Acesso negado</h1>"))) ∧
    get_client_ip none remote_addr = remote_addr ∧
    (h ≠ "" → get_client_ip (some h) remote_addr
      = String.mk (strip_chars (first_comma_field h.data))) := by
  refine ⟨fun hpath => ?_, rfl, fun hne => ?_⟩
  · unfold restrict_by_ip
    rw [if_neg hpath]
    by_cases hemp : allowed.isEmpty = true
    · have hnil : allowed = [] := List.isEmpty_iff.mp hemp
      simp [hemp, hnil]
    · have hnil : ¬allowed = [] := fun hc => hemp (by simp [hc])
      by_cases hc : allowed.contains (get_client_ip xff remote_addr) = true
      · have hmem := (contains_iff_mem_str allowed _).mp hc
        simp [hemp, hc, hmem]
      · have hmem : get_client_ip xff remote_addr ∉ allowed :=
          fun hm => hc ((contains_iff_mem_str allowed _).mpr hm)
        simp [hemp, hc, hnil, hmem, acesso_negado_body]
  · unfold get_client_ip
    show (if h.isEmpty = true then remote_addr
        else String.mk (strip_chars (first_comma_field h.data)))
      = String.mk (strip_chars (first_comma_field h.data))
    rw [if_neg (fun hc => hne ((String.isEmpty_iff h).mp hc))]

/-- C6 witness: with allow-list `{"10.0.0.1"}` the address `10.0.0.2` is
denied with the fixed 403 response and `10.0.0.1` passes; with an empty
allow-list every address passes; the forwarded-for header wins over the peer
address and its first comma field is stripped. -/
theorem C6_access_gate_witness :
    restrict_by_ip "/admin" none "10.0.0.2" ["10.0.0.1"]
      = some (403, "<h1>403 - Acesso negado</h1>") ∧
    restrict_by_ip "/admin" none "10.0.0.1" ["10.0.0.1"] = none ∧
    restrict_by_ip "/admin" none "10.0.0.2" [] = none ∧
    get_client_ip (some "10.0.0.1, 7.7.7.7") "9.9.9.9"
      = String.mk (strip_chars (first_comma_field ("10.0.0.1, 7.7.7.7").data)) := by
  have hden := C6_access_gate "/admin" none "10.0.0.2" ["10.0.0.1"] "x"
  have hok := C6_access_gate "/admin" none "10.0.0.1" ["10.0.0.1"] "x"
  have hemp := C6_access_gate "/admin" none "10.0.0.2" [] "x"
  have hxff := C6_access_gate "/" (some "10.0.0.1, 7.7.7.7") "9.9.9.9" []
    "10.0.0.1, 7.7.7.7"
  exact ⟨(hden.1 (by decide)).2 (by decide),
    (hok.1 (by decide)).1.mpr (Or.inr (by decide)),
    (hemp.1 (by decide)).1.mpr (Or.inl rfl),
    hxff.2.2 (by decide)⟩

instance : IsTrans Registro admin_order :=
  ⟨by
    intro a b c h1 h2
    rcases h1 with h1 | ⟨h1e, h1n⟩ <;> rcases h2 with h2 | ⟨h2e, h2n⟩
    · exact Or.inl (lt_trans h2 h1)
    · exact Or.inl (h2e ▸ h1)
    · exact Or.inl (by rw [h1e]; exact h2)
    · exact Or.inr ⟨h1e.trans h2e, le_trans h1n h2n⟩⟩

instance : IsTotal Registro admin_order :=
  ⟨by
    intro a b
    rcases lt_trichotomy a.dia b.dia with h | h | h
    · exact Or.inr (Or.inl h)
    · rcases le_total a.nome b.nome with hn | hn
      · exact Or.inl (Or.inr ⟨h, hn⟩)
      · exact Or.inr (Or.inr ⟨h.symm, hn⟩)
    · exact Or.inl (Or.inl h)⟩

/-- The SQL `WHERE` clause of `/admin`, read as bounds on the day. -/
theorem in_range_iff (start stop : Option Int) (r : Registro) :
    in_range start stop r = true ↔
      (∀ a, start = some a → a ≤ r.dia) ∧ (∀ b, stop = some b → r.dia ≤ b) := by
  unfold in_range
  cases start <;> cases stop <;> simp

/-- C5: `/admin` returns exactly the rows whose `dia` lies within the
inclusive bounds (an omitted bound imposes no restriction; no bounds returns
every row), sorted by day descending then display name ascending; on the
example table (Ana on day 2, Bia on day 3) the unbounded query returns
[Bia, Ana]. -/
theorem C5_query_range (db : List Registro) (start stop : Option Int) :
    (query_range db start stop).Perm (db.filter (in_range start stop)) ∧
    (∀ r, r ∈ query_range db start stop ↔
      (r ∈ db ∧ (∀ a, start = some a → a ≤ r.dia) ∧ (∀ b, stop = some b → r.dia ≤ b))) ∧
    (query_range db none none).Perm db ∧
    (query_range db start stop).Sorted admin_order ∧
    query_range
        [{ cpf := "1", dia := 2, nome := "Ana", entrada := none, saida := none },
         { cpf := "2", dia := 3, nome := "Bia", entrada := none, saida := none }]
        none none
      = [{ cpf := "2", dia := 3, nome := "Bia", entrada := none, saida := none },
         { cpf := "1", dia := 2, nome := "Ana", entrada := none, saida := none }] := by
  refine ⟨List.perm_insertionSort admin_order _, fun r => ?_, ?_, ?_, by decide⟩
  · unfold query_range
    rw [List.mem_insertionSort, List.mem_filter, in_range_iff]
  · have hfilter : db.filter (in_range none none) = db :=
      List.filter_eq_self.mpr (fun a _ => rfl)
    unfold query_range
    rw [hfilter]
    exact List.perm_insertionSort admin_order db
  · exact List.sorted_insertionSort admin_order _

/-- C5 witness: a row inside the inclusive bounds is returned, and the
unbounded example query returns Bia (day 3) before Ana (day 2). -/
theorem C5_query_range_witness :
    ({ cpf := "2", dia := 3, nome := "Bia", entrada := none, saida := none } : Registro)
      ∈ query_range
          [{ cpf := "1", dia := 2, nome := "Ana", entrada := none, saida := none },
           { cpf := "2", dia := 3, nome := "Bia", entrada := none, saida := none }]
          (some 3) (some 4) ∧
    query_range
        [{ cpf := "1", dia := 2, nome := "Ana", entrada := none, saida := none },
         { cpf := "2", dia := 3, nome := "Bia", entrada := none, saida := none }]
        none none
      = [{ cpf := "2", dia := 3, nome := "Bia", entrada := none, saida := none },
         { cpf := "1", dia := 2, nome := "Ana", entrada := none, saida := none }] := by
  have h := C5_query_range
    [{ cpf := "1", dia := 2, nome := "Ana", entrada := none, saida := none },
     { cpf := "2", dia := 3, nome := "Bia", entrada := none, saida := none }]
    (some 3) (some 4)
  refine ⟨(h.2.1 _).mpr ⟨by decide, fun a ha => ?_, fun b hb => ?_⟩, h.2.2.2.2⟩
  · cases ha; decide
  · cases hb; decide

/-- A looked-up row carries the key it was looked up by. -/
theorem find_registro_some_key (db : List Registro) (cpf : String) (dia : Int)
    (r : Registro) (h : find_registro db cpf dia = some r) :
    r.dia = dia ∧ r.cpf = cpf := by
  have hp := List.find?_some h
  unfold matches_key at hp
  rw [Bool.and_eq_true, beq_iff_eq, beq_iff_eq] at hp
  exact ⟨hp.2, hp.1⟩

/-- When `registrar_entrada` reports success, the row for `(cpf, hoje)` in
the new table has `entrada = agora`. -/
theorem registrar_entrada_ok_find (db : List Registro) (cpf nome : String)
    (hoje agora : Int) (h : (registrar_entrada db cpf nome hoje agora).1 = true) :
    ∃ r, find_registro (registrar_entrada db cpf nome hoje agora).2.2 cpf hoje = some r ∧
      r.entrada = some agora := by
  by_cases hja : entrada_ja_registrada db cpf hoje = true
  · rw [registrar_entrada_eq_of_ja db cpf nome hoje agora hja] at h
    exact Bool.noConfusion h
  · have hja' : entrada_ja_registrada db cpf hoje = false := by
      cases hv : entrada_ja_registrada db cpf hoje with
      | true => exact absurd hv hja
      | false => rfl
    exact (registrar_entrada_success db cpf nome hoje agora hja').2.2

/-- When `registrar_saida` reports success, the row for `(cpf, hoje)` in the
new table is the old row with `saida = agora`. -/
theorem registrar_saida_ok_find (db : List Registro) (cpf : String)
    (hoje agora : Int) (h : (registrar_saida db cpf hoje agora).1 = true) :
    ∃ r, find_registro db cpf hoje = some r ∧
      find_registro (registrar_saida db cpf hoje agora).2.2 cpf hoje
        = some { r with saida := some agora } := by
  cases hf : find_registro db cpf hoje with
  | none =>
    rw [registrar_saida_eq_absent db cpf hoje agora hf] at h
    exact Bool.noConfusion h
  | some r =>
    by_cases hre : r.entrada.isNone = true
    · rw [registrar_saida_eq_no_entrada db cpf hoje agora r hf hre] at h
      exact Bool.noConfusion h
    · have hre' : r.entrada.isNone = false := by
        cases hv : r.entrada.isNone with
        | true => exact absurd hv hre
        | false => rfl
      by_cases hrs : r.saida.isSome = true
      · rw [registrar_saida_eq_dup db cpf hoje agora r hf hre' hrs] at h
        exact Bool.noConfusion h
      · have hrs' : r.saida.isSome = false := by
          cases hv : r.saida.isSome with
          | true => exact absurd hv hrs
          | false => rfl
        refine ⟨r, rfl, ?_⟩
        rw [registrar_saida_eq_update db cpf hoje agora r hf hre' hrs']
        exact find_after_saida_update db cpf hoje agora r hf

/-- A request clock on which the server-local calendar date (day 10)
differs from the São Paulo-local date of the UTC instant (day 11) — e.g. a
server whose local timezone is one day behind São Paulo near midnight. -/
def relogio_skew : Relogio :=
  { today_local := 10, now_utc := 0, sp_day_of := fun _ => 11 }

/-- C9 counterexample: the route keys the punch by `date.today()` — the
server-local date (10) — and not by the São Paulo-local date of the stored
UTC instant (11), refuting the claim that "today" is obtained by converting
the UTC instant to America/Sao_Paulo. -/
theorem C9_counterexample :
    (registrar_entrada_rt relogio_skew [] "11111111111" "Ana").2.2
      = [{ cpf := "11111111111", dia := 10, nome := "Ana",
           entrada := some 0, saida := none }] ∧
    relogio_skew.sp_day_of relogio_skew.now_utc = 11 ∧
    (10 : Int) ≠ 11 := by
  exact ⟨by decide, rfl, by decide⟩

/-- C9 (amended): the calendar day keying a punch is the server-local date
`date.today()` (`today_local`), not the São Paulo-local date of the UTC
instant; the instant stored in the row is the UTC `utc_now()` reading. -/
theorem C9_today_is_server_local (c : Relogio) (db : List Registro) (cpf nome : String) :
    ((registrar_entrada_rt c db cpf nome).1 = true →
      ∃ r, find_registro (registrar_entrada_rt c db cpf nome).2.2 cpf c.today_local
          = some r ∧
        r.dia = c.today_local ∧ r.entrada = some c.now_utc) ∧
    ((registrar_saida_rt c db cpf).1 = true →
      ∃ r, find_registro (registrar_saida_rt c db cpf).2.2 cpf c.today_local = some r ∧
        r.dia = c.today_local ∧ r.saida = some c.now_utc) := by
  constructor
  · intro h
    obtain ⟨r, hr, hre⟩ := registrar_entrada_ok_find db cpf nome c.today_local c.now_utc h
    exact ⟨r, hr, (find_registro_some_key _ cpf c.today_local r hr).1, hre⟩
  · intro h
    obtain ⟨r, hr, hr'⟩ := registrar_saida_ok_find db cpf c.today_local c.now_utc h
    refine ⟨{ r with saida := some c.now_utc }, hr', ?_, rfl⟩
    exact (find_registro_some_key db cpf c.today_local r hr).1

/-- C9 witness: on the skewed clock, the entry punch succeeds and is keyed
under the server-local day 10 with the UTC instant 0. -/
theorem C9_today_is_server_local_witness :
    ∃ r, find_registro (registrar_entrada_rt relogio_skew [] "11111111111" "Ana").2.2
        "11111111111" relogio_skew.today_local = some r ∧
      r.dia = relogio_skew.today_local ∧ r.entrada = some relogio_skew.now_utc := by
  exact (C9_today_is_server_local relogio_skew [] "11111111111" "Ana").1 (by decide)

/-- Inductive invariant for op sequences whose clock readings stay ≤ `t`:
every row has an `entrada` instant `e ≤ t`, and any `saida` instant `s`
satisfies `e ≤ s ≤ t`. -/
def ledger_inv (t : Int) (db : List Registro) : Prop :=
  ∀ r ∈ db, ∃ e, r.entrada = some e ∧ e ≤ t ∧
    ∀ s, r.saida = some s → e ≤ s ∧ s ≤ t

theorem ledger_inv_mono (t t' : Int) (db : List Registro)
    (h : ledger_inv t db) (hle : t ≤ t') : ledger_inv t' db := by
  intro r hr
  obtain ⟨e, he, het, hs⟩ := h r hr
  exact ⟨e, he, le_trans het hle,
    fun s hs' => ⟨(hs s hs').1, le_trans (hs s hs').2 hle⟩⟩

theorem ledger_inv_entrada (t : Int) (db : List Registro) (cpf nome : String)
    (hoje agora : Int) (h : ledger_inv t db) (hle : t ≤ agora) :
    ledger_inv agora (registrar_entrada db cpf nome hoje agora).2.2 := by
  cases hf : find_registro db cpf hoje with
  | none =>
    rw [registrar_entrada_eq_insert db cpf nome hoje agora hf]
    intro r hr
    rcases List.mem_append.mp hr with hmem | hnew
    · exact ledger_inv_mono t agora db h hle r hmem
    · rw [List.mem_singleton] at hnew
      subst hnew
      exact ⟨agora, rfl, le_refl _, fun s hs => Option.noConfusion hs⟩
  | some r0 =>
    cases he0 : r0.entrada.isSome with
    | true =>
      rw [registrar_entrada_eq_dup db cpf nome hoje agora r0 hf he0]
      exact ledger_inv_mono t agora db h hle
    | false =>
      exfalso
      obtain ⟨e, he, -, -⟩ := h r0 (List.mem_of_find?_eq_some hf)
      rw [he] at he0
      exact Bool.noConfusion he0

theorem ledger_inv_saida (t : Int) (db : List Registro) (cpf : String)
    (hoje agora : Int) (h : ledger_inv t db) (hle : t ≤ agora) :
    ledger_inv agora (registrar_saida db cpf hoje agora).2.2 := by
  cases hf : find_registro db cpf hoje with
  | none =>
    rw [registrar_saida_eq_absent db cpf hoje agora hf]
    exact ledger_inv_mono t agora db h hle
  | some r0 =>
    by_cases hre : r0.entrada.isNone = true
    · rw [registrar_saida_eq_no_entrada db cpf hoje agora r0 hf hre]
      exact ledger_inv_mono t agora db h hle
    · have hre' : r0.entrada.isNone = false := by
        cases hv : r0.entrada.isNone with
        | true => exact absurd hv hre
        | false => rfl
      by_cases hrs : r0.saida.isSome = true
      · rw [registrar_saida_eq_dup db cpf hoje agora r0 hf hre' hrs]
        exact ledger_inv_mono t agora db h hle
      · have hrs' : r0.saida.isSome = false := by
          cases hv : r0.saida.isSome with
          | true => exact absurd hv hrs
          | false => rfl
        rw [registrar_saida_eq_update db cpf hoje agora r0 hf hre' hrs']
        intro r hr
        obtain ⟨x, hx, hfx⟩ := List.mem_map.mp hr
        obtain ⟨e, he, het, hs⟩ := h x hx
        subst hfx
        by_cases hm : matches_key cpf hoje x = true
        · simp only [if_pos hm]
          refine ⟨e, he, le_trans het hle, fun s hs' => ?_⟩
          have hsa : agora = s := Option.some.inj hs'
          exact ⟨hsa ▸ le_trans het hle, hsa ▸ le_refl agora⟩
        · simp only [if_neg hm]
          exact ⟨e, he, le_trans het hle,
            fun s hs' => ⟨(hs s hs').1, le_trans (hs s hs').2 hle⟩⟩

theorem ledger_inv_apply_op (t : Int) (db : List Registro) (op : Op)
    (h : ledger_inv t db) (hle : t ≤ op.agora) :
    ledger_inv op.agora (apply_op db op) := by
  cases op with
  | entrada cpf nome hoje agora => exact ledger_inv_entrada t db cpf nome hoje agora h hle
  | saida cpf hoje agora => exact ledger_inv_saida t db cpf hoje agora h hle

theorem ledger_inv_foldl (ops : List Op) (db : List Registro) (t : Int)
    (h : ledger_inv t db)
    (hch : List.Chain (fun a b => a ≤ b) t (ops.map Op.agora)) :
    ∃ t', ledger_inv t' (ops.foldl apply_op db) := by
  induction ops generalizing db t with
  | nil => exact ⟨t, h⟩
  | cons op ops ih =>
    rw [List.map_cons] at hch
    cases hch with
    | cons hle hch' =>
      exact ih (apply_op db op) op.agora (ledger_inv_apply_op t db op h hle) hch'

/-- Rows never lose their `entrada` instant: every row produced by an
operation either keeps its `entrada` or has it set to `some agora`, and
fresh rows are created with `entrada` set. -/
theorem entrada_isSome_apply_op (db : List Registro) (op : Op)
    (h : ∀ r ∈ db, r.entrada.isSome = true) :
    ∀ r ∈ apply_op db op, r.entrada.isSome = true := by
  cases op with
  | entrada cpf nome hoje agora =>
    show ∀ r ∈ (registrar_entrada db cpf nome hoje agora).2.2, r.entrada.isSome = true
    cases hf : find_registro db cpf hoje with
    | none =>
      rw [registrar_entrada_eq_insert db cpf nome hoje agora hf]
      intro r hr
      rcases List.mem_append.mp hr with hmem | hnew
      · exact h r hmem
      · rw [List.mem_singleton] at hnew
        subst hnew
        rfl
    | some r0 =>
      cases he0 : r0.entrada.isSome with
      | true =>
        rw [registrar_entrada_eq_dup db cpf nome hoje agora r0 hf he0]
        exact h
      | false =>
        rw [registrar_entrada_eq_update db cpf nome hoje agora r0 hf he0]
        intro r hr
        obtain ⟨x, hx, hfx⟩ := List.mem_map.mp hr
        subst hfx
        by_cases hm : matches_key cpf hoje x = true
        · simp only [if_pos hm]
          rfl
        · simp only [if_neg hm]
          exact h x hx
  | saida cpf hoje agora =>
    show ∀ r ∈ (registrar_saida db cpf hoje agora).2.2, r.entrada.isSome = true
    cases hf : find_registro db cpf hoje with
    | none =>
      rw [registrar_saida_eq_absent db cpf hoje agora hf]
      exact h
    | some r0 =>
      by_cases hre : r0.entrada.isNone = true
      · rw [registrar_saida_eq_no_entrada db cpf hoje agora r0 hf hre]
        exact h
      · have hre' : r0.entrada.isNone = false := by
          cases hv : r0.entrada.isNone with
          | true => exact absurd hv hre
          | false => rfl
        by_cases hrs : r0.saida.isSome = true
        · rw [registrar_saida_eq_dup db cpf hoje agora r0 hf hre' hrs]
          exact h
        · have hrs' : r0.saida.isSome = false := by
            cases hv : r0.saida.isSome with
            | true => exact absurd hv hrs
            | false => rfl
          rw [registrar_saida_eq_update db cpf hoje agora r0 hf hre' hrs']
          intro r hr
          obtain ⟨x, hx, hfx⟩ := List.mem_map.mp hr
          subst hfx
          by_cases hm : matches_key cpf hoje x = true
          · simp only [if_pos hm]
            exact h x hx
          · simp only [if_neg hm]
            exact h x hx

theorem entrada_isSome_foldl (ops : List Op) (db : List Registro)
    (h : ∀ r ∈ db, r.entrada.isSome = true) :
    ∀ r ∈ ops.foldl apply_op db, r.entrada.isSome = true := by
  induction ops generalizing db with
  | nil => exact h
  | cons op ops ih => exact ih (apply_op db op) (entrada_isSome_apply_op db op h)

/-- C3 counterexample: an entry punch at instant 100 followed by an exit
punch at instant 50 (the clock stepped backwards, which the code does not
guard against — the admin view clamps the negative span instead) reaches a
record whose exit instant 50 is smaller than its entry instant 100,
refuting `exit ≥ entry` for arbitrary reachable records. -/
theorem C3_counterexample :
    run_ops [Op.entrada "11111111111" "Ana" 0 100, Op.saida "11111111111" 0 50]
      = [{ cpf := "11111111111", dia := 0, nome := "Ana",
           entrada := some 100, saida := some 50 }] ∧
    ¬ ((50 : Int) ≥ 100) := by
  exact ⟨by decide, by decide⟩

/-- C3 (amended): every record reachable by a sequence of operations has an
entry instant whenever it has an exit instant; and when the clock readings
of the sequence are non-decreasing, the exit instant is ≥ the entry
instant. -/
theorem C3_reachable_invariant (ops : List Op) :
    (∀ r ∈ run_ops ops, r.saida.isSome = true → r.entrada.isSome = true) ∧
    ((ops.map Op.agora).Chain' (fun a b => a ≤ b) →
      ∀ r ∈ run_ops ops, ∀ e s, r.entrada = some e → r.saida = some s → e ≤ s) := by
  constructor
  · intro r hr _
    exact entrada_isSome_foldl ops [] (fun r hr => absurd hr (List.not_mem_nil r)) r hr
  · intro hch r hr e s he hs
    have hinv : ∃ t', ledger_inv t' (run_ops ops) := by
      cases ops with
      | nil =>
        exact ⟨0, fun r hr => absurd hr (List.not_mem_nil r)⟩
      | cons op ops' =>
        refine ledger_inv_foldl (op :: ops') [] op.agora
          (fun r hr => absurd hr (List.not_mem_nil r)) ?_
        rw [List.map_cons] at hch ⊢
        exact List.Chain.cons (le_refl op.agora) hch
    obtain ⟨t', hinv⟩ := hinv
    obtain ⟨e', he', -, hse⟩ := hinv r hr
    have hee : e' = e := Option.some.inj (he'.symm.trans he)
    exact hee ▸ (hse s hs).1

/-- C3 witness: with non-decreasing clock readings (entry at 100, exit at
150), the reachable record satisfies `entry ≤ exit`. -/
theorem C3_reachable_invariant_witness :
    ∃ r ∈ run_ops [Op.entrada "11111111111" "Ana" 0 100, Op.saida "11111111111" 0 150],
      r.entrada = some 100 ∧ r.saida = some 150 ∧ (100 : Int) ≤ 150 := by
  have hch : List.Chain' (fun a b : Int => a ≤ b)
      (List.map Op.agora
        [Op.entrada "11111111111" "Ana" 0 100, Op.saida "11111111111" 0 150]) := by
    show List.Chain' (fun a b : Int => a ≤ b) [100, 150]
    rw [List.chain'_cons]
    exact ⟨by decide, List.chain'_singleton 150⟩
  refine ⟨{ cpf := "11111111111", dia := 0, nome := "Ana",
            entrada := some 100, saida := some 150 }, by decide, rfl, rfl, ?_⟩
  exact (C3_reachable_invariant
      [Op.entrada "11111111111" "Ana" 0 100, Op.saida "11111111111" 0 150]).2
    hch { cpf := "11111111111", dia := 0, nome := "Ana",
          entrada := some 100, saida := some 150 } (by decide) 100 150 rfl rfl
